import Mathlib

/-!
Shallow embedding of the Channel3 MCP server (`src/index.ts`): the auth gate
(`withAuth` and the legacy `x-api-key` variant), the four tool handlers
(`search`, `get_product_detail`, `get_brands`, `get_brand_detail`), the
outbound request construction, and the success/error tool-result envelopes.
Strings model JavaScript strings; JSON values are modelled by an inductive
`Json` with a compact serializer mirroring `JSON.stringify`.
-/

namespace Channel3

/-- JSON values, as produced by `JSON.parse` / consumed by `JSON.stringify`.
Numbers are restricted to integers, which covers every number this adapter
itself constructs (`limit`, `page`, `size` are `z.number().int()`). -/
inductive Json where
  | null
  | bool (b : Bool)
  | num (n : Int)
  | str (s : String)
  | arr (elements : List Json)
  | obj (fields : List (String × Json))

/-- Hex digit character for `n < 16`, uppercase, as used in percent-escapes. -/
def hexDigit (n : Nat) : Char :=
  if n < 10 then Char.ofNat (48 + n) else Char.ofNat (55 + n)

/-- Escaping of a single character inside a JSON string literal, as
`JSON.stringify` does it for characters below U+0020 and for `"` and `\`. -/
def escapeJsonChar (c : Char) : String :=
  if c = '"' then "\\\""
  else if c = '\\' then "\\\\"
  else if c = '\x08' then "\\b"
  else if c = '\x09' then "\\t"
  else if c = '\x0a' then "\\n"
  else if c = '\x0c' then "\\f"
  else if c = '\x0d' then "\\r"
  else if c.toNat < 32 then
    "\\u00" ++ String.singleton (hexDigit (c.toNat / 16)) ++ String.singleton (hexDigit (c.toNat % 16))
  else String.singleton c

/-- Escaping of a JSON string body (the part between the quotes). -/
def escapeJsonString (s : String) : String :=
  s.data.foldl (fun acc c => acc ++ escapeJsonChar c) ""

mutual

/-- Compact serialization of a JSON value: `JSON.stringify` with no
space argument (no whitespace between tokens). -/
def Json.stringify : Json → String
  | .null => "null"
  | .bool true => "true"
  | .bool false => "false"
  | .num n => toString n
  | .str s => "\"" ++ escapeJsonString s ++ "\""
  | .arr es => "[" ++ stringifyElems es ++ "]"
  | .obj fs => "\x7b" ++ stringifyFields fs ++ "\x7d"

/-- Comma-separated serialization of array elements. -/
def stringifyElems : List Json → String
  | [] => ""
  | [j] => Json.stringify j
  | j :: rest => Json.stringify j ++ "," ++ stringifyElems rest

/-- Comma-separated serialization of object fields (`"key":value`). -/
def stringifyFields : List (String × Json) → String
  | [] => ""
  | [(k, v)] => "\"" ++ escapeJsonString k ++ "\":" ++ Json.stringify v
  | (k, v) :: rest =>
      "\"" ++ escapeJsonString k ++ "\":" ++ Json.stringify v ++ "," ++ stringifyFields rest

end

/-- `const BASE_URL = "https://api.trychannel3.com/v0"`. -/
def BASE_URL : String := "https://api.trychannel3.com/v0"

/-- The two inbound headers the auth gates read (`req.headers.get` returns
`null` for an absent header, modelled as `none`). -/
structure InboundHeaders where
  authorization : Option String
  xApiKey : Option String
deriving DecidableEq

/-- Outcome of an auth gate: an HTTP rejection, or dispatch to the wrapped
handler with the extracted API key stored in `ctx.props`. -/
inductive GateResult where
  | rejected (status : Nat) (body : String)
  | dispatched (apiKey : String)
deriving DecidableEq

/-- JavaScript `s.startsWith(p)`, on the character sequences. -/
def strStartsWith (s p : String) : Bool := p.data.isPrefixOf s.data

/-- JavaScript `s.slice(n)` for `0 ≤ n`: the characters from index `n` on. -/
def strDrop (s : String) (n : Nat) : String := String.mk (s.data.drop n)

/-- The `withAuth` wrapper of the primary revision: requires an
`Authorization` header that is truthy and starts with `"Bearer "`
(`!authHeader || !authHeader.startsWith("Bearer ")`), then takes
`authHeader.slice(7)` as the key and rejects an empty key. -/
def withAuthGate (hs : InboundHeaders) : GateResult :=
  match hs.authorization with
  | none => .rejected 401 "Bearer token required"
  | some a =>
    if (a == "") || !(strStartsWith a "Bearer ") then
      .rejected 401 "Bearer token required"
    else
      let apiKey := strDrop a 7
      if apiKey == "" then .rejected 401 "API Key required"
      else .dispatched apiKey

/-- The legacy variant gate (`app.mount` in the older revision): reads the
`x-api-key` header raw and rejects when it is absent or empty (`!apiKey`). -/
def xApiKeyGate (hs : InboundHeaders) : GateResult :=
  match hs.xApiKey with
  | none => .rejected 401 "API Key required"
  | some k => if k == "" then .rejected 401 "API Key required" else .dispatched k

/-- An HTTP response returned to the inbound caller by the gate. -/
structure HttpResponse where
  status : Nat
  body : String
deriving DecidableEq

/-- An outbound HTTP request to the upstream API, as built by a tool
handler's `fetch` call. -/
structure OutboundRequest where
  method : String
  url : String
  headers : List (String × String)
  body : Option String
deriving DecidableEq

/-- `withAuth(handler)` applied to a request: on rejection the wrapped
handler never runs (so no upstream request is issued — the first component
is the list of upstream calls made); on success the handler runs with the
extracted key. -/
def handledWithAuth (hs : InboundHeaders)
    (handler : String → List OutboundRequest × HttpResponse) :
    List OutboundRequest × HttpResponse :=
  match withAuthGate hs with
  | .rejected s b => ([], ⟨s, b⟩)
  | .dispatched apiKey => handler apiKey

/-- The headers attached to every outbound `fetch` of every tool handler. -/
def stdHeaders (apiKey : String) : List (String × String) :=
  [("Content-Type", "application/json"), ("x-api-key", apiKey)]

/-- Validated `search` parameters (`SearchRequestSchema`): all five fields
optional; `filters` is kept as the parsed JSON object, which the handler
forwards without inspecting it. -/
structure SearchParams where
  query : Option String
  image_url : Option String
  limit : Option Int
  filters : Option Json
  context : Option String

/-- Validated `get_brands` parameters (`GetBrandsSchema`). -/
structure GetBrandsParams where
  query : Option String
  page : Option Int
  size : Option Int

/-- JavaScript object-property update (`obj[k] = v` semantics under spread):
if the key is present its value is overwritten in place, otherwise the
key/value pair is appended at the end. -/
def setField (l : List (String × Json)) (k : String) (v : Json) : List (String × Json) :=
  if l.any (fun kv => kv.fst == k) then
    l.map (fun kv => if kv.fst == k then (k, v) else kv)
  else l ++ [(k, v)]

/-- The own enumerable fields of the parsed `params` object, in schema
declaration order; a field absent from the input is absent from the parsed
object (Zod `.optional()` adds no key). -/
def paramFields (p : SearchParams) : List (String × Json) :=
  (match p.query with | none => [] | some q => [("query", Json.str q)]) ++
  (match p.image_url with | none => [] | some u => [("image_url", Json.str u)]) ++
  (match p.limit with | none => [] | some n => [("limit", Json.num n)]) ++
  (match p.filters with | none => [] | some f => [("filters", f)]) ++
  (match p.context with | none => [] | some c => [("context", Json.str c)])

/-- `const requestBody = { ...params, limit: params.limit ?? 20,
filters: params.filters ?? {} }`. -/
def searchBodyFields (p : SearchParams) : List (String × Json) :=
  setField
    (setField (paramFields p) "limit" (Json.num (p.limit.getD 20)))
    "filters" (p.filters.getD (Json.obj []))

/-- Query-string pairs built by the `get_brands` handler: one
`url.searchParams.append` per parameter that is `!== undefined`. -/
def brandsQueryParams (p : GetBrandsParams) : List (String × String) :=
  (match p.query with | none => [] | some q => [("query", q)]) ++
  (match p.page with | none => [] | some n => [("page", toString n)]) ++
  (match p.size with | none => [] | some n => [("size", toString n)])

/-- Percent-escape of one character under the `application/x-www-form-urlencoded`
serializer used by `URLSearchParams` (space becomes `+`; `*`, `-`, `.`, `_`
and alphanumerics pass through; anything else becomes `%HH`). -/
def formEncodeChar (c : Char) : String :=
  if c = ' ' then "+"
  else if c.isAlphanum || c = '*' || c = '-' || c = '.' || c = '_' then String.singleton c
  else "%" ++ String.singleton (hexDigit (c.toNat / 16)) ++ String.singleton (hexDigit (c.toNat % 16))

/-- `application/x-www-form-urlencoded` escaping of a whole value. -/
def formEncode (s : String) : String :=
  s.data.foldl (fun acc c => acc ++ formEncodeChar c) ""

/-- Rendering of the query-string pairs into the URL, as `url.toString()`
does after the appends: empty when no parameter was appended. -/
def renderQueryString (qs : List (String × String)) : String :=
  match qs with
  | [] => ""
  | _ => "?" ++ String.intercalate "&" (qs.map (fun kv => kv.fst ++ "=" ++ formEncode kv.snd))

/-- A tool invocation: the closed set of the four registered tools with
their validated parameters. -/
inductive ToolCall where
  | search (p : SearchParams)
  | get_product_detail (product_id : String)
  | get_brands (p : GetBrandsParams)
  | get_brand_detail (brand_id : String)

/-- The single upstream request a tool handler issues, given the session's
API key: method, URL (template-literal concatenation for the path
parameters, `URL`+`searchParams` for `get_brands`), headers, and JSON body
for `search`. -/
def toolRequest (apiKey : String) : ToolCall → OutboundRequest
  | .search p =>
      { method := "POST", url := BASE_URL ++ "/search", headers := stdHeaders apiKey,
        body := some (Json.stringify (Json.obj (searchBodyFields p))) }
  | .get_product_detail product_id =>
      { method := "GET", url := BASE_URL ++ "/products/" ++ product_id,
        headers := stdHeaders apiKey, body := none }
  | .get_brands p =>
      { method := "GET",
        url := BASE_URL ++ "/brands" ++ renderQueryString (brandsQueryParams p),
        headers := stdHeaders apiKey, body := none }
  | .get_brand_detail brand_id =>
      { method := "GET", url := BASE_URL ++ "/brands/" ++ brand_id,
        headers := stdHeaders apiKey, body := none }

/-- A JavaScript exception value as the catch blocks see it: `err?.message`
(absent when the thrown value is not an `Error`) and `String(err)`. -/
structure JsError where
  message : Option String
  strRepr : String

/-- `err?.message || String(err)`: the message when it is a non-empty
string, otherwise the string conversion of the thrown value. -/
def jsErrorDisplay (e : JsError) : String :=
  match e.message with
  | some m => if m == "" then e.strRepr else m
  | none => e.strRepr

/-- The upstream `Response` as the handler observes it: status, status
phrase, and the outcomes of the two body-consuming promises the handlers
may await (`resp.text()` and `resp.json()`), each of which may reject. -/
structure UpstreamResponse where
  status : Nat
  statusText : String
  bodyText : Except JsError String
  bodyJson : Except JsError Json

/-- Outcome of the `await fetch(...)` expression: a response, or a thrown
low-level failure (DNS, timeout, connection reset). -/
inductive FetchOutcome where
  | thrown (e : JsError)
  | resp (r : UpstreamResponse)

/-- One item of a tool result's `content` array (always `type: "text"`). -/
structure ToolContent where
  type : String
  text : String
deriving DecidableEq

/-- A tool result envelope: `content` plus the `isError` flag (absent on
the success path, i.e. `false`). -/
structure ToolResult where
  content : List ToolContent
  isError : Bool
deriving DecidableEq

/-- The `...failed` prefix of each tool's non-2xx error message. -/
def failLabel : ToolCall → String
  | .search _ => "Search failed"
  | .get_product_detail _ => "Get product failed"
  | .get_brands _ => "Get brands failed"
  | .get_brand_detail _ => "Get brand failed"

/-- The `...error` prefix of each tool's catch-block error message. -/
def errLabel : ToolCall → String
  | .search _ => "Search error"
  | .get_product_detail _ => "Get product error"
  | .get_brands _ => "Get brands error"
  | .get_brand_detail _ => "Get brand error"

/-- `resp.ok`: status in the inclusive range 200–299. -/
def respOk (status : Nat) : Bool := 200 ≤ status && status ≤ 299

/-- `await resp.text().catch(() => "")`: the body text, or the empty
string when reading the body fails. -/
def errorTextOf (r : UpstreamResponse) : String :=
  match r.bodyText with
  | .ok t => t
  | .error _ => ""

/-- The response-processing logic shared by all four handlers, given the
fetch outcome: the catch block turns a thrown error into an error result;
a non-2xx status yields `"<fail> (<status>): <errorText || statusText>"`;
a 2xx status parses the JSON body (a rejection lands in the same catch
block) and returns `JSON.stringify(data)` without an error flag. -/
def runToolCall (c : ToolCall) (outcome : FetchOutcome) : ToolResult :=
  match outcome with
  | .thrown e =>
      { content := [⟨"text", errLabel c ++ ": " ++ jsErrorDisplay e⟩], isError := true }
  | .resp r =>
      if respOk r.status then
        match r.bodyJson with
        | .ok j => { content := [⟨"text", Json.stringify j⟩], isError := false }
        | .error e =>
            { content := [⟨"text", errLabel c ++ ": " ++ jsErrorDisplay e⟩], isError := true }
      else
        let errorText := errorTextOf r
        { content := [⟨"text",
            failLabel c ++ " (" ++ toString r.status ++ "): " ++
              (if errorText == "" then r.statusText else errorText)⟩],
          isError := true }

/-- The concatenated text of a tool result's content items. -/
def resultText (r : ToolResult) : String :=
  String.join (r.content.map (fun item => item.text))

/-- Substring occurrence: `t` occurs inside `s`. -/
def strOccurs (s t : String) : Prop := ∃ a b, s = a ++ t ++ b

/-- A concrete wrapped handler used to instantiate gate theorems: issues
one upstream request and answers 200. -/
def stubToolHandler : String → List OutboundRequest × HttpResponse :=
  fun apiKey =>
    ([{ method := "GET", url := BASE_URL ++ "/brands", headers := stdHeaders apiKey,
        body := none }], ⟨200, "ok"⟩)

theorem resultText_single (ty t : String) (b : Bool) :
    resultText { content := [⟨ty, t⟩], isError := b } = t := rfl

theorem strAppend_assoc (a b c : String) : (a ++ b) ++ c = a ++ (b ++ c) := by
  cases a with | mk la =>
  cases b with | mk lb =>
  cases c with | mk lc =>
  show String.mk ((la ++ lb) ++ lc) = String.mk (la ++ (lb ++ lc))
  rw [List.append_assoc]

theorem strAppend_empty (a : String) : a ++ "" = a := by
  cases a with | mk la =>
  show String.mk (la ++ []) = String.mk la
  rw [List.append_nil]

/-- C1: a request whose Authorization header is missing or does not start
with `"Bearer "` is answered 401 `"Bearer token required"`; a header that is
exactly `"Bearer "` (empty key) is answered 401 `"API Key required"`; in
both cases the wrapped handler never runs, so no upstream request is
issued (the request list is empty). -/
theorem auth_gate_rejects_missing_or_malformed_bearer
    (hs : InboundHeaders) (handler : String → List OutboundRequest × HttpResponse) :
    ((∀ a, hs.authorization = some a → strStartsWith a "Bearer " = false) →
      handledWithAuth hs handler = ([], ⟨401, "Bearer token required"⟩)) ∧
    (hs.authorization = some "Bearer " →
      handledWithAuth hs handler = ([], ⟨401, "API Key required"⟩)) := by
  constructor
  · intro h
    cases e : hs.authorization with
    | none => simp [handledWithAuth, withAuthGate, e]
    | some a =>
      have hb := h a e
      simp [handledWithAuth, withAuthGate, e, hb]
  · intro h
    unfold handledWithAuth withAuthGate
    rw [h]
    rfl

/-- Witness for C1: a request with only an `x-api-key` header, and a
request with the bare `"Bearer "` header, are both rejected without any
upstream call. -/
theorem auth_gate_rejects_missing_or_malformed_bearer_witness :
    handledWithAuth ⟨none, some "k"⟩ stubToolHandler = ([], ⟨401, "Bearer token required"⟩) ∧
    handledWithAuth ⟨some "Bearer ", none⟩ stubToolHandler = ([], ⟨401, "API Key required"⟩) :=
  ⟨(auth_gate_rejects_missing_or_malformed_bearer ⟨none, some "k"⟩ stubToolHandler).1
      (fun _ ha => Option.noConfusion ha),
   (auth_gate_rejects_missing_or_malformed_bearer ⟨some "Bearer ", none⟩ stubToolHandler).2 rfl⟩

/-- Counterexample to C7: a request presenting its credential only via the
`x-api-key` header is NOT accepted by the auth gate the server mounts
(`withAuth`); it is rejected with 401 `"Bearer token required"`. -/
theorem xapikey_only_rejected_by_mounted_gate :
    withAuthGate ⟨none, some "k"⟩ = .rejected 401 "Bearer token required" ∧
    withAuthGate ⟨none, some "k"⟩ ≠ .dispatched "k" := by
  decide

/-- C7 (amended): only the legacy variant gate accepts an x-api-key-only
request, with session key equal to the raw header value; the primary
mounted gate rejects such a request with 401 `"Bearer token required"`. -/
theorem xapikey_gate_accepts_raw_key (a : Option String) (k : String) (hk : k ≠ "") :
    xApiKeyGate ⟨a, some k⟩ = .dispatched k ∧
    withAuthGate ⟨none, some k⟩ = .rejected 401 "Bearer token required" := by
  refine ⟨?_, rfl⟩
  have hb : (k == "") = false := beq_eq_false_iff_ne.mpr hk
  simp [xApiKeyGate, hb]

/-- Witness for the amended C7 at a concrete key. -/
theorem xapikey_gate_accepts_raw_key_witness :
    xApiKeyGate ⟨none, some "secret"⟩ = .dispatched "secret" ∧
    withAuthGate ⟨none, some "secret"⟩ = .rejected 401 "Bearer token required" :=
  xapikey_gate_accepts_raw_key none "secret" (by decide)

/-- C9: every outbound upstream request of every tool carries exactly the
two headers `Content-Type: application/json` and `x-api-key: <session key>`,
regardless of HTTP method. -/
theorem outbound_requests_carry_exact_headers (apiKey : String) (c : ToolCall) :
    (toolRequest apiKey c).headers =
      [("Content-Type", "application/json"), ("x-api-key", apiKey)] := by
  cases c <;> rfl

/-- C2: for every tool, a non-2xx upstream status yields an error-flagged
result whose text contains the numeric status code, together with the
upstream body text when that is non-empty, and the HTTP status phrase when
the read body text is empty. -/
theorem non_2xx_yields_error_with_status (c : ToolCall) (r : UpstreamResponse)
    (h : respOk r.status = false) :
    (runToolCall c (.resp r)).isError = true ∧
    strOccurs (resultText (runToolCall c (.resp r))) (toString r.status) ∧
    (∀ t, r.bodyText = .ok t → t ≠ "" →
      strOccurs (resultText (runToolCall c (.resp r))) t) ∧
    (errorTextOf r = "" →
      strOccurs (resultText (runToolCall c (.resp r))) r.statusText) := by
  have e : runToolCall c (.resp r) =
      { content := [⟨"text", failLabel c ++ " (" ++ toString r.status ++ "): " ++
          (if errorTextOf r == "" then r.statusText else errorTextOf r)⟩],
        isError := true } := by
    simp [runToolCall, h]
  refine ⟨by rw [e], ?_, ?_, ?_⟩
  · refine ⟨failLabel c ++ " (",
      "): " ++ (if errorTextOf r == "" then r.statusText else errorTextOf r), ?_⟩
    rw [e, resultText_single, strAppend_assoc]
  · intro t ht hne
    have he : errorTextOf r = t := by simp [errorTextOf, ht]
    have hb : (errorTextOf r == "") = false := by
      rw [he]; exact beq_eq_false_iff_ne.mpr hne
    have hX : (if errorTextOf r == "" then r.statusText else errorTextOf r) = t := by
      rw [if_neg (fun hc => Bool.false_ne_true (hb ▸ hc)), he]
    refine ⟨failLabel c ++ " (" ++ toString r.status ++ "): ", "", ?_⟩
    rw [e, resultText_single, hX, strAppend_empty]
  · intro he
    have hX : (if errorTextOf r == "" then r.statusText else errorTextOf r) = r.statusText := by
      rw [if_pos (by rw [he]; decide)]
    refine ⟨failLabel c ++ " (" ++ toString r.status ++ "): ", "", ?_⟩
    rw [e, resultText_single, hX, strAppend_empty]

/-- Witness for C2: a 404 with body `"missing"` on `get_product_detail`
gives an error-flagged result whose text contains `"404"` and `"missing"`. -/
theorem non_2xx_yields_error_with_status_witness :
    respOk 404 = false ∧
    (runToolCall (.get_product_detail "abc")
      (.resp ⟨404, "Not Found", .ok "missing", .error ⟨some "x", "x"⟩⟩)).isError = true ∧
    strOccurs (resultText (runToolCall (.get_product_detail "abc")
      (.resp ⟨404, "Not Found", .ok "missing", .error ⟨some "x", "x"⟩⟩))) "404" ∧
    strOccurs (resultText (runToolCall (.get_product_detail "abc")
      (.resp ⟨404, "Not Found", .ok "missing", .error ⟨some "x", "x"⟩⟩))) "missing" := by
  have h := non_2xx_yields_error_with_status (.get_product_detail "abc")
    ⟨404, "Not Found", .ok "missing", .error ⟨some "x", "x"⟩⟩ rfl
  exact ⟨rfl, h.1, h.2.1, h.2.2.1 "missing" rfl (by decide)⟩

/-- C3: a thrown fetch failure, and equally a JSON-parse rejection of a 2xx
body, is caught and turned into an error-flagged textual result containing
the exception's message; the handler returns a result in both cases rather
than letting the fault propagate. -/
theorem thrown_and_parse_failures_are_caught (c : ToolCall) (e : JsError) (m : String)
    (r : UpstreamResponse) (hm : e.message = some m) (hne : m ≠ "")
    (hok : respOk r.status = true) (hj : r.bodyJson = .error e) :
    ((runToolCall c (.thrown e)).isError = true ∧
      strOccurs (resultText (runToolCall c (.thrown e))) m) ∧
    ((runToolCall c (.resp r)).isError = true ∧
      strOccurs (resultText (runToolCall c (.resp r))) m) := by
  have hb : (m == "") = false := beq_eq_false_iff_ne.mpr hne
  have hd : jsErrorDisplay e = m := by simp [jsErrorDisplay, hm, hb]
  have e1 : runToolCall c (.thrown e) =
      { content := [⟨"text", errLabel c ++ ": " ++ m⟩], isError := true } := by
    simp [runToolCall, hd]
  have e2 : runToolCall c (.resp r) =
      { content := [⟨"text", errLabel c ++ ": " ++ m⟩], isError := true } := by
    simp [runToolCall, hok, hj, hd]
  refine ⟨⟨by rw [e1], ⟨errLabel c ++ ": ", "", ?_⟩⟩, ⟨by rw [e2], ⟨errLabel c ++ ": ", "", ?_⟩⟩⟩
  · rw [e1]
    show errLabel c ++ ": " ++ m = _
    rw [strAppend_empty]
  · rw [e2]
    show errLabel c ++ ": " ++ m = _
    rw [strAppend_empty]

/-- Witness for C3: a thrown `"connection refused"` on `search`, and a JSON
parse failure of a 200 body, both yield error results containing the
message. -/
theorem thrown_and_parse_failures_are_caught_witness :
    ((runToolCall (.search ⟨none, none, none, none, none⟩)
        (.thrown ⟨some "connection refused", "Error: connection refused"⟩)).isError = true ∧
      strOccurs (resultText (runToolCall (.search ⟨none, none, none, none, none⟩)
        (.thrown ⟨some "connection refused", "Error: connection refused"⟩))) "connection refused") ∧
    ((runToolCall (.search ⟨none, none, none, none, none⟩)
        (.resp ⟨200, "OK", .ok "not json",
          .error ⟨some "connection refused", "Error: connection refused"⟩⟩)).isError = true ∧
      strOccurs (resultText (runToolCall (.search ⟨none, none, none, none, none⟩)
        (.resp ⟨200, "OK", .ok "not json",
          .error ⟨some "connection refused", "Error: connection refused"⟩⟩))) "connection refused") :=
  thrown_and_parse_failures_are_caught (.search ⟨none, none, none, none, none⟩)
    ⟨some "connection refused", "Error: connection refused"⟩ "connection refused"
    ⟨200, "OK", .ok "not json", .error ⟨some "connection refused", "Error: connection refused"⟩⟩
    rfl (by decide) rfl rfl

/-- C5: a 2xx upstream status whose body parses as JSON `j` yields a
non-error result whose text is `JSON.stringify j`. -/
theorem success_returns_stringified_json (c : ToolCall) (r : UpstreamResponse) (j : Json)
    (hok : respOk r.status = true) (hj : r.bodyJson = .ok j) :
    runToolCall c (.resp r) =
      { content := [⟨"text", Json.stringify j⟩], isError := false } := by
  simp [runToolCall, hok, hj]

/-- Witness for C5: the stub upstream body `\x7b"products":[\x7b"id":"p1"\x7d]\x7d`
with status 200 on a `search` call produces a non-error result whose text
is exactly that compact JSON string. -/
theorem success_returns_stringified_json_witness :
    runToolCall (.search ⟨some "red sneakers", none, none, none, none⟩)
      (.resp ⟨200, "OK", .ok "\x7b\"products\":[\x7b\"id\":\"p1\"\x7d]\x7d",
        .ok (Json.obj [("products", Json.arr [Json.obj [("id", Json.str "p1")]])])⟩) =
      { content := [⟨"text", "\x7b\"products\":[\x7b\"id\":\"p1\"\x7d]\x7d"⟩],
        isError := false } := by
  have h := success_returns_stringified_json
    (.search ⟨some "red sneakers", none, none, none, none⟩)
    ⟨200, "OK", .ok "\x7b\"products\":[\x7b\"id\":\"p1\"\x7d]\x7d",
      .ok (Json.obj [("products", Json.arr [Json.obj [("id", Json.str "p1")]])])⟩
    (Json.obj [("products", Json.arr [Json.obj [("id", Json.str "p1")]])]) rfl rfl
  rw [h]
  rfl

/-- C10: when the upstream status is non-2xx and reading the error body
itself fails, the failure is absorbed (`.catch(() => "")`), and the result
is still error-flagged with the text falling back to the HTTP status
phrase; no exception escapes. -/
theorem body_read_failure_falls_back_to_status_text (c : ToolCall) (r : UpstreamResponse)
    (e : JsError) (h : respOk r.status = false) (hb : r.bodyText = .error e) :
    runToolCall c (.resp r) =
      { content := [⟨"text",
          failLabel c ++ " (" ++ toString r.status ++ "): " ++ r.statusText⟩],
        isError := true } := by
  have he : errorTextOf r = "" := by simp [errorTextOf, hb]
  simp [runToolCall, h, he]

/-- Witness for C10: a 500 whose body read rejects, on `get_brands`, still
yields the error envelope with the status phrase. -/
theorem body_read_failure_falls_back_to_status_text_witness :
    runToolCall (.get_brands ⟨none, none, none⟩)
      (.resp ⟨500, "Internal Server Error", .error ⟨some "stream broken", "Error"⟩,
        .error ⟨some "stream broken", "Error"⟩⟩) =
      { content := [⟨"text",
          failLabel (.get_brands ⟨none, none, none⟩) ++ " (" ++ toString (500 : Nat) ++ "): " ++
            "Internal Server Error"⟩],
        isError := true } :=
  body_read_failure_falls_back_to_status_text (.get_brands ⟨none, none, none⟩)
    ⟨500, "Internal Server Error", .error ⟨some "stream broken", "Error"⟩,
      .error ⟨some "stream broken", "Error"⟩⟩
    ⟨some "stream broken", "Error"⟩ rfl rfl

/-- C4: the `search` body is the validated parameters with two runtime
defaults applied: `limit` is 20 when absent (otherwise the given value),
`filters` is the empty object when absent (otherwise the given object),
and each other optional field (`query`, `image_url`, `context`) appears in
the body exactly when it is present in the input. -/
theorem search_body_defaults (k : String) (p : SearchParams) :
    (toolRequest k (.search p)).body =
      some (Json.stringify (Json.obj (searchBodyFields p))) ∧
    (searchBodyFields p).lookup "limit" = some (Json.num (p.limit.getD 20)) ∧
    (searchBodyFields p).lookup "filters" = some (p.filters.getD (Json.obj [])) ∧
    (searchBodyFields p).lookup "query" = p.query.map Json.str ∧
    (searchBodyFields p).lookup "image_url" = p.image_url.map Json.str ∧
    (searchBodyFields p).lookup "context" = p.context.map Json.str := by
  obtain ⟨q, iu, lim, fil, ctx⟩ := p
  refine ⟨rfl, ?_, ?_, ?_, ?_, ?_⟩ <;>
    cases q <;> cases iu <;> cases lim <;> cases fil <;> cases ctx <;> rfl

/-- C6: the `get_brands` query string holds exactly the parameters among
`query`, `page`, `size` that are present in the input, with their given
values; an absent parameter contributes no pair at all. -/
theorem brands_query_params_exact (k : String) (p : GetBrandsParams) :
    (toolRequest k (.get_brands p)).url =
      BASE_URL ++ "/brands" ++ renderQueryString (brandsQueryParams p) ∧
    (brandsQueryParams p).lookup "query" = p.query ∧
    (brandsQueryParams p).lookup "page" = p.page.map (fun n => toString n) ∧
    (brandsQueryParams p).lookup "size" = p.size.map (fun n => toString n) ∧
    (brandsQueryParams p).map Prod.fst =
      (match p.query with | none => [] | some _ => ["query"]) ++
      (match p.page with | none => [] | some _ => ["page"]) ++
      (match p.size with | none => [] | some _ => ["size"]) := by
  obtain ⟨q, pg, sz⟩ := p
  refine ⟨rfl, ?_, ?_, ?_, ?_⟩ <;> cases q <;> cases pg <;> cases sz <;> rfl

/-- Modelled from the spec: percent-encoding of a URL path segment, as the
words "URL-escaped into the path" require — RFC 3986 unreserved characters
pass through, every other character becomes `%HH`. Used only to compare
the code's URL construction against the claim. -/
def specEncodePathSegment (s : String) : String :=
  s.data.foldl (fun acc c =>
    if c.isAlphanum || c = '-' || c = '.' || c = '_' || c = '~' then
      acc ++ String.singleton c
    else
      acc ++ "%" ++ String.singleton (hexDigit (c.toNat / 16)) ++
        String.singleton (hexDigit (c.toNat % 16))) ""

/-- Counterexample to C8: for `product_id = "a b"` the handler builds the
URL by template-literal concatenation, so the path keeps the raw space and
is not the URL-escaped path (`a%20b`) the claim describes. -/
theorem product_detail_url_not_escaped :
    (toolRequest "k" (.get_product_detail "a b")).url =
      "https://api.trychannel3.com/v0/products/a b" ∧
    specEncodePathSegment "a b" = "a%20b" ∧
    (toolRequest "k" (.get_product_detail "a b")).url ≠
      "https://api.trychannel3.com/v0/products/" ++ specEncodePathSegment "a b" := by
  refine ⟨rfl, rfl, ?_⟩
  decide

/-- C8 (amended): every `get_product_detail` invocation issues a GET with
no body whose URL is the base URL, `/products/`, and the identifier
concatenated verbatim; the adapter applies no URL-escaping. -/
theorem product_detail_url_verbatim (k product_id : String) :
    (toolRequest k (.get_product_detail product_id)).method = "GET" ∧
    (toolRequest k (.get_product_detail product_id)).url =
      BASE_URL ++ "/products/" ++ product_id ∧
    (toolRequest k (.get_product_detail product_id)).body = none :=
  ⟨rfl, rfl, rfl⟩

end Channel3
